import Mathlib

/-!
Verification of the DarkDiskz storage-administration tool (src/main.py).

This file gives a shallow embedding of the drive-inventory layer
(`DriveInfo.get_drives`, `DriveInfo.filter_drives`, `DriveInfo.get_smart_info`,
`DriveInfo.get_technical_details`), the RAID-creation helper, and the four
wizard state machines (RaidWizard, BcacheWizard, FstabWizard, BenchmarkWizard),
together with theorems that settle the specification claims about them.

External effects (subprocess invocations, sysfs probes, GTK widgets) are
modelled as explicit environment records passed to the embedded functions;
logical wizard state (current step, selections, completion flags, button
sensitivities, status texts) is carried in explicit state records.
-/

namespace DarkDiskz

/-! ## Python string primitives used by the source -/

/-- Python `str.lower()` restricted to ASCII, which is all the source compares. -/
def pyLower (s : String) : String := String.mk (s.data.map Char.toLower)

/-- Python `str.strip()` (leading/trailing whitespace removal). -/
def pyStrip (s : String) : String :=
  String.mk
    (((s.data.dropWhile Char.isWhitespace).reverse.dropWhile Char.isWhitespace).reverse)

/-- Python `s[:-1]`: drop the last character (empty string stays empty). -/
def pyDropLast (s : String) : String := String.mk s.data.dropLast

/-- Test whether `needle` occurs inside `hay` (Python `needle in hay`). -/
def listHasSub (needle : List Char) : List Char → Bool
  | [] => needle.isEmpty
  | c :: rest => needle.isPrefixOf (c :: rest) || listHasSub needle rest

/-- Python `needle in hay` on strings. -/
def strHasSub (hay needle : String) : Bool := listHasSub needle.data hay.data

/-- Python `hay.startswith(pre)`. -/
def strStartsWith (hay pre : String) : Bool := pre.data.isPrefixOf hay.data

/-- Python `hay.endswith(suf)`. -/
def strEndsWith (hay suf : String) : Bool := suf.data.isSuffixOf hay.data

/-- Accumulating worker of `pySplitWs` (the accumulator holds the current
word reversed). -/
def wsSplitAux : List Char → List Char → List String
  | [], acc => if acc.isEmpty then [] else [String.mk acc.reverse]
  | c :: rest, acc =>
    if c.isWhitespace then
      if acc.isEmpty then wsSplitAux rest []
      else String.mk acc.reverse :: wsSplitAux rest []
    else wsSplitAux rest (c :: acc)

/-- Python `line.split()` — split on whitespace runs, dropping empty pieces. -/
def pySplitWs (s : String) : List String := wsSplitAux s.data []

/-- Split a character list on a single separator character (keeping empty
pieces, like Python `str.split(sep)`). -/
def splitOnCharList (sep : Char) : List Char → List (List Char)
  | [] => [[]]
  | c :: rest =>
    let r := splitOnCharList sep rest
    if c = sep then [] :: r
    else
      match r with
      | [] => [[c]]
      | h :: t => (c :: h) :: t

/-- Python `str.splitlines()` for newline-separated text: like splitting on
a newline but without a trailing empty piece. -/
def pyLines (s : String) : List String :=
  let ps := (splitOnCharList (Char.ofNat 10) s.data).map String.mk
  if ps.getLast? = some "" then ps.dropLast else ps

/-- Python `" ".join(l)`. -/
def joinWithSpace : List String → String
  | [] => ""
  | h :: t => t.foldl (fun a b => a ++ " " ++ b) h

/-- Python truthiness of an optional string (`None` and `""` are falsy). -/
def pyOptStr (o : Option String) : Bool :=
  match o with
  | none => false
  | some s => s ≠ ""

/-- Python `str(x)` for an optional string: `None` renders as `"None"`
inside an f-string. -/
def pyStrObj (o : Option String) : String :=
  match o with
  | none => "None"
  | some s => s

/-- Python `str(x)` for an optional integer field (`None` renders `"None"`). -/
def pyStrObjNat (o : Option Nat) : String :=
  match o with
  | none => "None"
  | some n => toString n

/-- Python `os.path.basename` / `dev.split("/")[-1]` for device paths. -/
def pyBasename (s : String) : String :=
  ((((splitOnCharList (Char.ofNat 47) s.data).map String.mk).getLast?).getD s)

/-! ## The Drive record and drive inventory (`DriveInfo.get_drives`) -/

/-- One entry of the drive list built by `DriveInfo.get_drives`
(src/main.py lines 49-60). -/
structure Drive where
  name : String
  display_name : String
  size : String
  model : String
  transport : String
  rotational : Bool
  is_nvme : Bool
  is_removable : Bool
  is_hotplug : Bool
  is_usb : Bool
deriving Repr, DecidableEq

/-- One decoded `lsblk -d -J` block-device object. Fields the source reads
with `dict.get` are optional (`none` = key absent); `name` is accessed with
`device['name']`, so a well-formed record always carries it (a missing or
null value raises inside the `try` block and is folded into the query-level
error case of `get_drives`). -/
structure RawDevice where
  name : String
  size : Option String
  model : Option String
  tran : Option String
  rota : Option Bool
  dtype : Option String
  hotplug : Option Bool
  rm : Option Bool
deriving Repr, DecidableEq

/-- The record built for one `type == 'disk'` device
(src/main.py lines 49-60). -/
def mkDrive (d : RawDevice) : Drive :=
  { name := "/dev/" ++ d.name
    display_name := d.name
    size := d.size.getD "Unknown"
    model := d.model.getD "Unknown Drive"
    transport := d.tran.getD "Unknown"
    rotational := d.rota.getD false
    is_nvme := strHasSub (pyLower d.name) "nvme"
    is_removable := d.rm.getD false
    is_hotplug := d.hotplug.getD false
    is_usb := pyLower (d.tran.getD "") == "usb" }

/-- `DriveInfo.get_drives` (src/main.py lines 36-65). The argument is the
outcome of the `lsblk` subprocess plus JSON decoding: `.error` stands for any
exception raised inside the `try` block (failing subprocess, unparseable
JSON, unexpected shapes), which the source catches and converts to `[]`. -/
def get_drives : Except String (List RawDevice) → List Drive
  | .error _ => []
  | .ok devs => (devs.filter (fun d => d.dtype == some "disk")).map mkDrive

/-- The USB test of `DriveInfo.filter_drives` (src/main.py line 75). -/
def usbPred (d : Drive) : Bool := d.is_usb && (pyLower d.transport == "usb")

/-- `DriveInfo.filter_drives` (src/main.py lines 67-80): returns
`(main_drives, usb_drives)`, preserving input order in both lists. -/
def filter_drives : List Drive → List Drive × List Drive
  | [] => ([], [])
  | d :: rest =>
    let p := filter_drives rest
    if usbPred d then (p.1, d :: p.2) else (d :: p.1, p.2)

/-! ## Claim C1 -/

/-- The `main` output of `filter_drives` is the complement sublist. -/
lemma filter_drives_fst (drives : List Drive) :
    (filter_drives drives).1 = drives.filter (fun d => !usbPred d) := by
  induction drives with
  | nil => rfl
  | cons d rest ih =>
    by_cases h : usbPred d = true
    · simp [filter_drives, h, ih, List.filter_cons]
    · simp [filter_drives, h, ih, List.filter_cons]

/-- The `usb` output of `filter_drives` is the USB sublist. -/
lemma filter_drives_snd (drives : List Drive) :
    (filter_drives drives).2 = drives.filter usbPred := by
  induction drives with
  | nil => rfl
  | cons d rest ih =>
    by_cases h : usbPred d = true
    · simp [filter_drives, h, ih, List.filter_cons]
    · simp [filter_drives, h, ih, List.filter_cons]

/-- Claim C1: `filter_drives` partitions its input: the `usb` output is
exactly the sublist of drives with `is_usb` set and transport
case-insensitively `"usb"`, the `main` output is exactly the complementary
sublist, and every input drive occurrence lands in exactly one of the two
outputs (counted with multiplicity, and characterised by membership). -/
theorem filter_drives_partition (drives : List Drive) :
    (filter_drives drives).1 = drives.filter (fun d => !usbPred d) ∧
    (filter_drives drives).2 = drives.filter usbPred ∧
    (∀ d : Drive,
      ((filter_drives drives).1.count d + (filter_drives drives).2.count d
        = drives.count d)) ∧
    (∀ d : Drive, d ∈ (filter_drives drives).2 ↔ d ∈ drives ∧ usbPred d = true) ∧
    (∀ d : Drive, d ∈ (filter_drives drives).1 ↔ d ∈ drives ∧ ¬ usbPred d = true) := by
  refine ⟨filter_drives_fst drives, filter_drives_snd drives, ?_, ?_, ?_⟩
  · intro d
    rw [filter_drives_fst, filter_drives_snd]
    by_cases h : usbPred d = true
    · have h1 : List.count d (List.filter (fun x => !usbPred x) drives) = 0 :=
        List.count_eq_zero_of_not_mem (by simp [List.mem_filter, h])
      have h2 : List.count d (List.filter usbPred drives) = List.count d drives :=
        List.count_filter (by simp [h])
      rw [h1, h2]
      omega
    · have h1 : List.count d (List.filter (fun x => !usbPred x) drives)
          = List.count d drives :=
        List.count_filter (by simp [h])
      have h2 : List.count d (List.filter usbPred drives) = 0 :=
        List.count_eq_zero_of_not_mem (by simp [List.mem_filter, h])
      rw [h1, h2]
      omega
  · intro d
    rw [filter_drives_snd]
    simp [List.mem_filter]
  · intro d
    rw [filter_drives_fst]
    simp [List.mem_filter]

/-! ## Claim C9 -/

/-- Claim C9: `get_drives` never raises (it is a total function into drive
lists); on any query error it returns the empty list, which is literally the
same value it returns for a successful query reporting no block devices —
so an error is indistinguishable from a system with no disks. -/
theorem get_drives_fail_soft (e : String) :
    get_drives (.error e) = [] ∧ get_drives (.error e) = get_drives (.ok []) := by
  constructor <;> rfl

/-! ## SMART queries (`DriveInfo.get_smart_info`, src/main.py lines 91-169) -/

/-- Result of one `subprocess.run(..., capture_output=True, text=True)`. -/
structure ProcResult where
  returncode : Int
  stdout : String
  stderr : String
deriving Repr, DecidableEq

/-- Environment of one `get_smart_info` call: whether `smartctl` resolves,
and the outcome of running `smartctl -H -A device` without (`run false`) or
with (`run true`) `sudo`. The environment is static: re-running the same
command yields the same outcome, which matches a system whose permission
state does not change during the call. -/
structure SmartEnv where
  smartctlAvailable : Bool
  run : Bool → ProcResult

/-- One parsed SMART attribute: either a classic ATA table row
(src/main.py lines 119-129; note column 2, the FLAG column, is skipped) or
an NVMe key/value line (line 141). -/
inductive SmartAttr
  | classic (id name value worst thresh typ updated when_failed raw : String)
  | nvmeKV (name value raw : String)
deriving Repr, DecidableEq

/-- Classic-table attribute scan (src/main.py lines 109-130): a line whose
stripped form starts with `ID#` or `ID` opens the table, a blank line closes
it, and rows with at least 10 whitespace fields and a numeric first field
become attributes. -/
def parseClassicLines : List String → Bool → List SmartAttr
  | [], _ => []
  | line :: rest, in_table =>
    if strStartsWith (pyStrip line) "ID#" || strStartsWith (pyStrip line) "ID" then
      parseClassicLines rest true
    else
      let in_table := if in_table && (pyStrip line == "") then false else in_table
      if in_table then
        let parts := pySplitWs line
        (if parts.length ≥ 10
            && ((parts.headD "") ≠ "" && ((parts.headD "").data.all Char.isDigit)) then
          [SmartAttr.classic (parts.getD 0 "") (parts.getD 1 "") (parts.getD 3 "")
            (parts.getD 4 "") (parts.getD 5 "") (parts.getD 6 "") (parts.getD 7 "")
            (parts.getD 8 "") (joinWithSpace (parts.drop 9))]
        else []) ++ parseClassicLines rest in_table
      else parseClassicLines rest in_table

/-- Python `line.split(':', 1)` when a colon is present: the part before the
first colon and the part after it. -/
def splitFirstColon (line : String) : String × String :=
  let p := line.data.span (fun c => c ≠ ':')
  (String.mk p.1, String.mk (p.2.drop 1))

/-- NVMe key/value scan (src/main.py lines 132-141): lines after a
`SMART/Health Information` marker and before the next blank line, split at
their first colon. -/
def parseNvmeLines : List String → Bool → List SmartAttr
  | [], _ => []
  | line :: rest, sec =>
    if strHasSub line "SMART/Health Information" then parseNvmeLines rest true
    else if sec && (pyStrip line == "") then []
    else if sec && strHasSub line ":" then
      let kv := splitFirstColon line
      SmartAttr.nvmeKV (pyStrip kv.1) (pyStrip kv.2) (pyStrip kv.2)
        :: parseNvmeLines rest sec
    else parseNvmeLines rest sec

/-- Attribute parsing of `get_smart_info`: the classic-table parse, falling
back to the NVMe scan when it produced nothing (src/main.py lines 106-141). -/
def parseSmartAttributes (output : String) : List SmartAttr :=
  let attrs := parseClassicLines (pyLines output) false
  if attrs.isEmpty then parseNvmeLines (pyLines output) false else attrs

/-- The dictionary `get_smart_info` returns. Optional fields are keys absent
in some of the returned dictionaries (`health` is `none` both for an absent
key and for a present `None` value, which the callers treat alike). -/
structure SmartInfo where
  available : Bool
  output : String
  health : Option Bool
  needs_sudo : Option Bool
  error : Option String
  attributes : Option (List SmartAttr)
deriving Repr, DecidableEq

/-- `get_smart_info` result when `smartctl` is not installed (line 96). -/
def smartNotInstalled : SmartInfo :=
  { available := false, output := "smartctl not found", health := none,
    needs_sudo := none, error := some "smartctl not installed", attributes := none }

/-- `get_smart_info` success dictionary (lines 142-148). -/
def smartSuccess (out : String) : SmartInfo :=
  { available := true, output := out, health := some (strHasSub out "PASSED"),
    needs_sudo := some false, error := none,
    attributes := some (parseSmartAttributes out) }

/-- `get_smart_info` generic failure dictionary (lines 162-167), built from
whatever `result` currently holds. -/
def smartCmdFailed (r : ProcResult) : SmartInfo :=
  { available := false, output := "Command failed: " ++ r.stderr, health := none,
    needs_sudo := none,
    error := some ("smartctl returned code " ++ toString r.returncode),
    attributes := none }

/-- The dictionary produced when the self-recursion of `get_smart_info`
exhausts the Python recursion limit: the `RecursionError` is caught by the
`except` at line 160 and converted to the `Sudo failed` dictionary. -/
def smartRecursionError : SmartInfo :=
  { available := false,
    output := "Sudo failed: maximum recursion depth exceeded", health := none,
    needs_sudo := none, error := some "maximum recursion depth exceeded",
    attributes := none }

/-- The body of `get_smart_info` (src/main.py lines 92-169) minus the
self-recursive call: `onSudoOk` is the value produced when the escalated
retry exits 0 or 4 (the source then re-enters `get_smart_info` from scratch,
line 159). The second component counts `sudo smartctl` invocations performed
by this activation. -/
def smartBody (env : SmartEnv) (onSudoOk : SmartInfo × Nat) : SmartInfo × Nat :=
  if !env.smartctlAvailable then (smartNotInstalled, 0)
  else
    let r := env.run false
    if r.returncode == 0 || r.returncode == 4 then (smartSuccess r.stdout, 0)
    else if r.returncode == 1 && strHasSub r.stderr "Permission denied" then
      let r2 := env.run true
      if r2.returncode == 0 || r2.returncode == 4 then onSudoOk
      else (smartCmdFailed r2, 1)
    else (smartCmdFailed r, 0)

/-- `DriveInfo.get_smart_info` with explicit recursion fuel: `fuel` is the
remaining Python recursion depth, and exhausting it models the
`RecursionError` raised by the self-call at line 159. Returns the resulting
dictionary and the total number of `sudo smartctl` invocations. -/
def getSmartInfoAux (env : SmartEnv) : Nat → SmartInfo × Nat
  | 0 => smartBody env (smartRecursionError, 1)
  | f + 1 =>
    smartBody env
      (let p := getSmartInfoAux env f
       (p.1, p.2 + 1))

/-- `DriveInfo.get_smart_info` proper, at a given recursion budget. -/
def get_smart_info (env : SmartEnv) (fuel : Nat) : SmartInfo :=
  (getSmartInfoAux env fuel).1

/-- An environment where the unprivileged query is denied and every
escalated query succeeds. -/
def smartEnvSudoOk : SmartEnv :=
  { smartctlAvailable := true
    run := fun su =>
      if su then { returncode := 0, stdout := "PASSED", stderr := "" }
      else { returncode := 1, stdout := "", stderr := "smartctl: Permission denied" } }

/-- An environment where the unprivileged query is denied and the escalated
query also fails (exit code 1 without new output). -/
def smartEnvSudoFail : SmartEnv :=
  { smartctlAvailable := true
    run := fun su =>
      if su then { returncode := 1, stdout := "", stderr := "still denied" }
      else { returncode := 1, stdout := "", stderr := "smartctl: Permission denied" } }

/-! ## Claim C2 -/

/-- Claim C2 (code bug): when the unprivileged query exits 1 with
`Permission denied` on stderr and the escalated retry fails, the function
does return an unavailable result carrying the error of the escalated
attempt after exactly one retry — but when the escalated retry succeeds, the
source re-calls `get_smart_info` from scratch (line 159), so with a static
permission-denied environment it keeps invoking `sudo smartctl`: with
remaining recursion depth 3 it performs 4 escalated invocations instead of
at most one, and the final result is unavailable (the `RecursionError`
converts to a `Sudo failed` dictionary) even though every escalated attempt
succeeded. This refutes "it never retries more than once". -/
theorem get_smart_info_escalation_bug :
    (getSmartInfoAux smartEnvSudoFail 3).2 = 1 ∧
    (getSmartInfoAux smartEnvSudoFail 3).1.available = false ∧
    (getSmartInfoAux smartEnvSudoFail 3).1.error = some "smartctl returned code 1" ∧
    (getSmartInfoAux smartEnvSudoOk 3).2 = 4 ∧
    (getSmartInfoAux smartEnvSudoOk 3).1.available = false := by
  refine ⟨rfl, rfl, rfl, rfl, rfl⟩

/-! ## Benchmark block-count derivation (src/main.py lines 3614-3622) -/

/-- Numeric value of a digit run (most significant first). -/
def natOfDigits (l : List Char) : Nat :=
  l.foldl (fun n c => n * 10 + (c.toNat - 48)) 0

/-- A parsed Python float, represented exactly as a signed decimal
`(-1)^neg * mant / 10^fracLen`. The benchmark code only multiplies such
values by 1024 and truncates to `int`, operations this representation
performs exactly; it coincides with IEEE-double `float` on the short decimal
size strings involved. -/
structure PyFloat where
  neg : Bool
  mant : Nat
  fracLen : Nat
deriving Repr, DecidableEq

/-- Python `float(s)` on plain decimal literals: optional sign, digits with
at most one decimal point, surrounding whitespace allowed; `none` is the
`ValueError` raised on anything else (in particular on the empty string).
Exponent/underscore/infinity forms never arise from the benchmark size
strings this models. -/
def pyFloatP (s : String) : Option PyFloat :=
  let t := (pyStrip s).data
  let signed :=
    match t with
    | [] => (false, ([] : List Char))
    | c :: rest =>
      if c = '-' then (true, rest)
      else if c = '+' then (false, rest)
      else (false, t)
  let u := signed.2
  let ip := u.takeWhile (fun c => c ≠ '.')
  let tail := u.drop ip.length
  let fp := tail.drop 1
  if !(ip.isEmpty && fp.isEmpty) && ip.all Char.isDigit && fp.all Char.isDigit
      && fp.all (fun c => c ≠ '.') then
    some { neg := signed.1, mant := natOfDigits (ip ++ fp), fracLen := fp.length }
  else none

/-- Multiplication of a parsed float by a natural constant. -/
def pyFloatMul (d : PyFloat) (k : Nat) : PyFloat := { d with mant := d.mant * k }

/-- Python `str(int(x))`: truncate toward zero, then render. -/
def pyIntStr (d : PyFloat) : String :=
  let m := d.mant / 10 ^ d.fracLen
  if d.neg && (m != 0) then "-" ++ toString m else toString m

deriving instance DecidableEq for Except

/-- Lift the `ValueError` of `float` into `Except`. -/
def pyFloatE (s : String) : Except String PyFloat :=
  match pyFloatP s with
  | some q => .ok q
  | none => .error "ValueError"

/-- The dd block-count derivation of `BenchmarkWizard._on_next` step 4
(src/main.py lines 3614-3622), applied to the stored size string. Line 3616
is a conditional expression whose value is immediately overwritten by the
`if`/`elif`/`else` of lines 3617-3622, but it is still evaluated first and
can raise (`float(size[:-1])` with an empty slice), which the handler does
not catch. -/
def derive_dd_count (size : String) : Except String String := do
  let _dead ←
    if strEndsWith (pyLower size) "g" then do
      let q ← pyFloatE (pyDropLast size)
      pure (pyIntStr (pyFloatMul q 1024))
    else do
      let q ← pyFloatE (pyDropLast size)
      pure (pyIntStr q)
  if strEndsWith (pyLower size) "g" then do
    let q ← pyFloatE (pyDropLast size)
    pure (pyIntStr (pyFloatMul q 1024))
  else if strEndsWith (pyLower size) "m" then do
    let q ← pyFloatE (pyDropLast size)
    pure (pyIntStr q)
  else
    pure "1024"

/-! ## Claim C3 -/

/-- Claim C3 (code bug): `"1G"` does yield count 1024 and `"512M"` count
512, and a multi-character string with an unrecognized suffix (for example
`"2K"`) does fall back to 1024 — but the claimed example `"2"` (and any
suffixless input whose first characters are not a parseable float, including
the empty string) raises `ValueError` at the dead conditional expression of
line 3616 (`float("2"[:-1]) = float("")`) before the fallback branch is
reached, so the claim that any other or no suffix yields the fallback 1024
without raising is false on the code. -/
theorem derive_dd_count_fallback_bug :
    derive_dd_count "1G" = .ok "1024" ∧
    derive_dd_count "512M" = .ok "512" ∧
    derive_dd_count "2K" = .ok "1024" ∧
    derive_dd_count "2" = .error "ValueError" ∧
    derive_dd_count "" = .error "ValueError" := by
  refine ⟨by decide, by decide, by decide, by decide, by decide⟩

/-! ## Technical details (`DriveInfo.get_technical_details`,
src/main.py lines 229-310)

The rotation/TRIM derivation of lines 267-291 is a pure function of the
probed fields: the device name, the lsblk transport and rotational flag, and
the udevadm RPM and link-speed values. Fields read with `details.get` are
optional; a null lsblk `tran` value would abort the whole computation
through the outer exception handler before this derivation runs, so the
modelled transport is a plain string when present. -/

/-- `is_nvme` of line 268: NVMe-named or NVMe transport. -/
def isNvmeDevice (devname : String) (transport : Option String) : Bool :=
  strHasSub (pyLower devname) "nvme" || (pyLower (transport.getD "") == "nvme")

/-- The `trim` field after line 272: always `Supported` for NVMe devices,
otherwise whatever the lsblk discard probe produced. -/
def trim_detail (devname : String) (transport : Option String)
    (trimRaw : Option String) : Option String :=
  if isNvmeDevice devname transport then some "Supported" else trimRaw

/-- PCIe generation mapping of lines 281-288: substring checks on the
link-speed value, tried in the order 8.0, 16.0, 32.0; `Unknown` when the
value is absent, empty or unmatched. -/
def nvmeGen (link_speed : Option String) : String :=
  match link_speed with
  | none => "Unknown"
  | some ls =>
    if ls ≠ "" then
      if strHasSub ls "8.0" then "PCIe Gen 3"
      else if strHasSub ls "16.0" then "PCIe Gen 4"
      else if strHasSub ls "32.0" then "PCIe Gen 5"
      else "Unknown"
    else "Unknown"

/-- The `rotation_speed` summary of lines 273-291: rotational devices first
(RPM if known and nonzero, else `Unknown (HDD)`), then non-rotational NVMe
(PCIe generation suffixed with ` (NVMe)`), else `Solid State (SSD)`. -/
def rotation_speed (devname : String) (transport : Option String)
    (rota : Option Bool) (rpm : Option String) (link_speed : Option String) :
    String :=
  let is_nvme := isNvmeDevice devname transport
  let is_rotational := rota.getD false
  if is_rotational then
    if pyOptStr rpm && ((rpm.getD "") != "0") then (rpm.getD "") ++ " rpm"
    else "Unknown (HDD)"
  else if is_nvme then nvmeGen link_speed ++ " (NVMe)"
  else "Solid State (SSD)"

/-! ## Claim C6 -/

/-- Claim C6: the priority rule of the rotation/TRIM derivation. NVMe-named
or NVMe-transport devices always get `trim = Supported`; rotational devices
(checked first) report `<rpm> rpm` for a known nonzero RPM and
`Unknown (HDD)` otherwise; non-rotational NVMe devices map link-speed
substrings 8.0/16.0/32.0 to PCIe Gen 3/4/5 and anything else to `Unknown`,
the chosen generation label being suffixed ` (NVMe)` in the stored summary;
all other non-rotational devices get `Solid State (SSD)`. -/
theorem technical_details_priority :
    (∀ devname transport trimRaw, isNvmeDevice devname transport = true →
      trim_detail devname transport trimRaw = some "Supported") ∧
    (∀ devname transport trimRaw, isNvmeDevice devname transport = false →
      trim_detail devname transport trimRaw = trimRaw) ∧
    (∀ devname transport rota rpm ls r, rota.getD false = true →
      rpm = some r → r ≠ "" → r ≠ "0" →
      rotation_speed devname transport rota rpm ls = r ++ " rpm") ∧
    (∀ devname transport rota ls, rota.getD false = true →
      rotation_speed devname transport rota none ls = "Unknown (HDD)" ∧
      rotation_speed devname transport rota (some "") ls = "Unknown (HDD)" ∧
      rotation_speed devname transport rota (some "0") ls = "Unknown (HDD)") ∧
    (∀ devname transport rota rpm ls l, rota.getD false = false →
      isNvmeDevice devname transport = true → ls = some l →
      (strHasSub l "8.0" = true →
        rotation_speed devname transport rota rpm ls = "PCIe Gen 3 (NVMe)") ∧
      (strHasSub l "8.0" = false → strHasSub l "16.0" = true →
        rotation_speed devname transport rota rpm ls = "PCIe Gen 4 (NVMe)") ∧
      (strHasSub l "8.0" = false → strHasSub l "16.0" = false →
        strHasSub l "32.0" = true →
        rotation_speed devname transport rota rpm ls = "PCIe Gen 5 (NVMe)") ∧
      (strHasSub l "8.0" = false → strHasSub l "16.0" = false →
        strHasSub l "32.0" = false →
        rotation_speed devname transport rota rpm ls = "Unknown (NVMe)")) ∧
    (∀ devname transport rota rpm, rota.getD false = false →
      isNvmeDevice devname transport = true →
      rotation_speed devname transport rota rpm none = "Unknown (NVMe)") ∧
    (∀ devname transport rota rpm ls, rota.getD false = false →
      isNvmeDevice devname transport = false →
      rotation_speed devname transport rota rpm ls = "Solid State (SSD)") := by
  refine ⟨?_, ?_, ?_, ?_, ?_, ?_, ?_⟩
  · intro devname transport trimRaw h
    simp [trim_detail, h]
  · intro devname transport trimRaw h
    simp [trim_detail, h]
  · intro devname transport rota rpm ls r hrot hrpm h1 h2
    subst hrpm
    simp [rotation_speed, hrot, pyOptStr, h1, h2]
  · intro devname transport rota ls hrot
    refine ⟨?_, ?_, ?_⟩ <;> simp [rotation_speed, hrot, pyOptStr]
  · intro devname transport rota rpm ls l hrot hnvme hls
    subst hls
    refine ⟨?_, ?_, ?_, ?_⟩
    · intro h8
      by_cases hl : l = "" <;>
        simp_all [rotation_speed, nvmeGen, hrot, hnvme, h8, strHasSub, listHasSub]
    · intro h8 h16
      have hl : l ≠ "" := by
        intro he
        subst he
        simp [strHasSub, listHasSub] at h16
      simp [rotation_speed, nvmeGen, hrot, hnvme, h8, h16, hl]
    · intro h8 h16 h32
      have hl : l ≠ "" := by
        intro he
        subst he
        simp [strHasSub, listHasSub] at h32
      simp [rotation_speed, nvmeGen, hrot, hnvme, h8, h16, h32, hl]
    · intro h8 h16 h32
      by_cases hl : l = "" <;>
        simp_all [rotation_speed, nvmeGen, hrot, hnvme, h8, h16, h32]
  · intro devname transport rota rpm hrot hnvme
    simp [rotation_speed, nvmeGen, hrot, hnvme]
  · intro devname transport rota rpm ls hrot hnvme
    simp [rotation_speed, hrot, hnvme]

/-- Witness for C6: the priority rule evaluated at concrete devices: an
NVMe device gets TRIM Supported and the Gen-3 summary for an 8.0 GT/s link,
a rotational device with RPM 7200 reports `7200 rpm`, a rotational device
without RPM reports `Unknown (HDD)`, a 16.0 GT/s NVMe reports Gen 4, an
unmatched 5.0 GT/s link reports Unknown, and a plain SSD reports
`Solid State (SSD)`. -/
theorem technical_details_priority_check :
    trim_detail "nvme0n1" none none = some "Supported" ∧
    rotation_speed "sda" (some "sata") (some true) (some "7200") none
      = "7200 rpm" ∧
    rotation_speed "sda" (some "sata") (some true) none none
      = "Unknown (HDD)" ∧
    rotation_speed "nvme0n1" none none none (some "8.0 GT/s")
      = "PCIe Gen 3 (NVMe)" ∧
    rotation_speed "nvme0n1" none none none (some "16.0 GT/s")
      = "PCIe Gen 4 (NVMe)" ∧
    rotation_speed "nvme0n1" none none none (some "32.0 GT/s")
      = "PCIe Gen 5 (NVMe)" ∧
    rotation_speed "nvme0n1" none none none (some "5.0 GT/s")
      = "Unknown (NVMe)" ∧
    rotation_speed "sdb" (some "sata") (some false) none none
      = "Solid State (SSD)" := by
  refine ⟨technical_details_priority.1 _ _ _ (by decide), ?_, ?_, ?_, ?_, ?_, ?_, ?_⟩
  · exact technical_details_priority.2.2.1 _ _ _ _ _ _ (by decide) rfl
      (by decide) (by decide)
  · exact (technical_details_priority.2.2.2.1 _ _ _ _ (by decide)).1
  · exact (technical_details_priority.2.2.2.2.1 _ _ _ _ _ _ (by decide) (by decide)
      rfl).1 (by decide)
  · exact (technical_details_priority.2.2.2.2.1 _ _ _ _ _ _ (by decide) (by decide)
      rfl).2.1 (by decide) (by decide)
  · exact (technical_details_priority.2.2.2.2.1 _ _ _ _ _ _ (by decide) (by decide)
      rfl).2.2.1 (by decide) (by decide) (by decide)
  · exact (technical_details_priority.2.2.2.2.1 _ _ _ _ _ _ (by decide) (by decide)
      rfl).2.2.2 (by decide) (by decide) (by decide)
  · exact technical_details_priority.2.2.2.2.2.2 _ _ _ _ _ (by decide) (by decide)

/-! ## RAID array creation (`RaidWizard._run_raid_creation`,
src/main.py lines 1456-1488) -/

/-- The single-quote character (written numerically to keep it out of the
surrounding text). -/
def sq : String := String.mk [Char.ofNat 39]

/-- Characters Python `shlex.quote` leaves unquoted: ASCII letters, digits,
underscore, and the punctuation at-sign, percent, plus, equals, colon,
comma, dot, slash, hyphen. -/
def shlexSafeChar (c : Char) : Bool :=
  c.isAlphanum || (['_', '@', '%', '+', '=', ':', ',', '.', '/', '-'].contains c)

/-- Replace every occurrence of a character by a replacement string. -/
def replaceChar (s : String) (c : Char) (rep : String) : String :=
  String.mk (s.data.foldr (fun ch acc => if ch = c then rep.data ++ acc else ch :: acc) [])

/-- Python `shlex.quote`: empty strings and strings with unsafe characters
are wrapped in single quotes, with embedded single quotes escaped. -/
def shlexQuote (s : String) : String :=
  if s = "" then sq ++ sq
  else if s.data.all shlexSafeChar then s
  else sq ++ replaceChar s (Char.ofNat 39) (sq ++ "\"" ++ sq ++ "\"" ++ sq) ++ sq

/-- The interactive pause every wizard appends before handing a shell
command to the spawned terminal. -/
def pausedCmd (c : String) : String :=
  c ++ "; read -n 1 -s -r -p " ++ sq ++ "Press any key to close..." ++ sq

/-- The `for i in range(0, 10)` loop of lines 1463-1468 over an explicit
index list: the first index whose `/dev/mdN` path is not among the used
names wins, `md10` when the list is exhausted. -/
def chooseArrayNameAux (used : List String) : List Nat → String
  | [] => "md10"
  | i :: rest =>
    if used.contains ("/dev/md" ++ toString i) then chooseArrayNameAux used rest
    else "md" ++ toString i

/-- Array-name selection of `_run_raid_creation` (lines 1461-1468), given
the names of the currently discovered RAID arrays. -/
def choose_array_name (used : List String) : String :=
  chooseArrayNameAux used (List.range 10)

/-- The shell command the `_run_raid_creation` worker hands to the terminal
(line 1476): `none` when no terminal emulator is found, or when fewer than
two drives are selected (the worker then dies on an IndexError). -/
def raidWorkerCmd (arrays : List String) (term : Bool) (level : Option Nat)
    (devices : List String) : Option String :=
  if !term then none
  else
    match devices with
    | d0 :: d1 :: _ =>
      some (pausedCmd ("sudo mdadm --create /dev/" ++ choose_array_name arrays
        ++ " --level=" ++ pyStrObjNat level ++ " --raid-devices=2 "
        ++ shlexQuote d0 ++ " " ++ shlexQuote d1))
    | _ => none

/-- If every index in the list is taken, the loop falls through to `md10`. -/
lemma chooseArrayNameAux_all_taken (used : List String) (l : List Nat)
    (h : ∀ i ∈ l, used.contains ("/dev/md" ++ toString i) = true) :
    chooseArrayNameAux used l = "md10" := by
  induction l with
  | nil => rfl
  | cons a t ih =>
    rw [chooseArrayNameAux, if_pos (h a (List.mem_cons_self a t))]
    exact ih (fun i hi => h i (List.mem_cons_of_mem a hi))

/-! ## Claim C5 -/

/-- Claim C5: on confirming the Review step, the array name is the first of
`md0` .. `md9` whose `/dev/mdN` path is not among the discovered array
names, `md10` when all ten are taken; and the creation command handed to the
terminal is `sudo mdadm --create /dev/<name> --level=<selected level>
--raid-devices=2 <drive1> <drive2>` (with the interactive pause appended;
`shlex.quote` leaves well-formed device paths unchanged). -/
theorem raid_creation_name_and_cmd :
    (∀ used : List String,
      (∀ j, j < 10 → used.contains ("/dev/md" ++ toString j) = true) →
      choose_array_name used = "md10") ∧
    (∀ (used : List String) (i : Nat), i < 10 →
      used.contains ("/dev/md" ++ toString i) = false →
      (∀ j, j < i → used.contains ("/dev/md" ++ toString j) = true) →
      choose_array_name used = "md" ++ toString i) ∧
    (∀ (arrays : List String) (level : Nat) (d0 d1 : String),
      d0 ≠ "" → d0.data.all shlexSafeChar = true →
      d1 ≠ "" → d1.data.all shlexSafeChar = true →
      raidWorkerCmd arrays true (some level) [d0, d1]
        = some (pausedCmd ("sudo mdadm --create /dev/" ++ choose_array_name arrays
            ++ " --level=" ++ toString level ++ " --raid-devices=2 "
            ++ d0 ++ " " ++ d1))) := by
  refine ⟨?_, ?_, ?_⟩
  · intro used h
    exact chooseArrayNameAux_all_taken used (List.range 10)
      (fun i hi => h i (List.mem_range.mp hi))
  · intro used i hi hfree htaken
    have hr : List.range 10 = [0, 1, 2, 3, 4, 5, 6, 7, 8, 9] := rfl
    rw [choose_array_name, hr]
    interval_cases i <;>
      simp_all [chooseArrayNameAux]
  · intro arrays level d0 d1 h0 h0s h1 h1s
    have hq0 : shlexQuote d0 = d0 := by
      rw [shlexQuote, if_neg h0, if_pos h0s]
    have hq1 : shlexQuote d1 = d1 := by
      rw [shlexQuote, if_neg h1, if_pos h1s]
    simp [raidWorkerCmd, hq0, hq1, pyStrObjNat]

/-- Witness for C5: with `/dev/md0` and `/dev/md1` in use, the chosen name
is `md2`; with `md0`-`md9` all in use the fallback is `md10`; and the
concrete command for a RAID-1 creation on `/dev/sdb` and `/dev/sdc`. -/
theorem raid_creation_name_and_cmd_check :
    choose_array_name ["/dev/md0", "/dev/md1"] = "md2" ∧
    choose_array_name ["/dev/md0", "/dev/md1", "/dev/md2", "/dev/md3",
      "/dev/md4", "/dev/md5", "/dev/md6", "/dev/md7", "/dev/md8", "/dev/md9"]
      = "md10" ∧
    raidWorkerCmd [] true (some 1) ["/dev/sdb", "/dev/sdc"]
      = some (pausedCmd ("sudo mdadm --create /dev/md0 --level=1"
          ++ " --raid-devices=2 /dev/sdb /dev/sdc")) := by
  refine ⟨?_, ?_, ?_⟩
  · exact raid_creation_name_and_cmd.2.1 _ 2 (by norm_num) (by decide)
      (by decide)
  · exact raid_creation_name_and_cmd.1 _ (by decide)
  · have h := raid_creation_name_and_cmd.2.2 [] 1 "/dev/sdb" "/dev/sdc"
      (by decide) (by decide) (by decide) (by decide)
    rw [h]
    rfl

/-! ## Wizard state machines

Each wizard carries its logical state — current step (a rational, because
the Fstab wizard uses the fractional step 1.5), list selections, accumulated
choices, per-step completion flags, navigation-button sensitivities and
status texts — in a state record, and every GTK handler becomes a state
transition. External probes and subprocess outcomes are passed as
environment records or event parameters. Button texts set with `set_markup`
are modelled as their plain text. -/

/-- Outcome of launching a terminal for a side-effecting action: no
supported terminal emulator was found, the spawned process exited normally,
or `subprocess.run` raised (`err` is the exception text). -/
inductive ExecOutcome
  | noTerminal
  | ok
  | fail (err : String)
deriving Repr, DecidableEq

/-! ### RaidWizard (src/main.py lines 1097-1506) -/

/-- Logical state of `RaidWizard`. `level_row` and `drive_rows` are the
current list-box selections (`drive_rows` holds the `device` attributes of
the selected rows); the remaining fields are the attributes the source
stores on `self`. -/
structure RaidState where
  current_step : ℚ
  level_row : Option Nat
  drive_rows : List String
  selected_level : Option Nat
  selected_drives : List String
  d1_wiped : Bool
  d2_wiped : Bool
  wipe1_status : String
  wipe2_status : String
  back_sens : Bool
  next_sens : Bool
  next_label : String
  finish_sens : Bool
  result_text : String
deriving Repr, DecidableEq

/-- `RaidWizard._update_cleanse_ui` (lines 1389-1395): reset both wipe flags
and status labels. -/
def raidUpdateCleanse (s : RaidState) : RaidState :=
  { s with d1_wiped := false, d2_wiped := false,
           wipe1_status := "Not wiped yet.", wipe2_status := "Not wiped yet." }

/-- `RaidWizard._show_step` (lines 1277-1313). Entering step 2 repopulates
the drive list, which drops any existing row selection; entering step 3 runs
`_update_cleanse_ui` and gates Next on the freshly reset wipe flags. -/
def raidShowStep (s : RaidState) (step : ℚ) : RaidState :=
  let s := { s with current_step := step }
  if step = 0 then
    { s with back_sens := false, next_sens := true, next_label := "Next" }
  else if step = 1 then
    { s with back_sens := true, next_sens := true, next_label := "Next" }
  else if step = 2 then
    { s with drive_rows := [], back_sens := true, next_sens := true,
             next_label := "Next" }
  else if step = 3 then
    let s := raidUpdateCleanse s
    { s with back_sens := true, next_sens := s.d1_wiped && s.d2_wiped,
             next_label := "Next" }
  else if step = 4 then
    { s with back_sens := true, next_sens := true, next_label := "Confirm" }
  else if step = 5 then
    { s with back_sens := false, next_sens := false, finish_sens := false }
  else s

/-- `RaidWizard._on_next` (lines 1315-1342). Failed validations show an
error dialog and return without touching any state. The array creation
launched after the step-4 transition is asynchronous and modelled by the
separate `creationDone` event. -/
def raidNext (s : RaidState) : RaidState :=
  if s.current_step = 0 then raidShowStep s 1
  else if s.current_step = 1 then
    match s.level_row with
    | none => s
    | some idx =>
      raidShowStep { s with selected_level := some (if idx = 0 then 0 else 1) } 2
  else if s.current_step = 2 then
    if s.drive_rows.length ≠ 2 then s
    else raidShowStep { s with selected_drives := s.drive_rows } 3
  else if s.current_step = 3 then
    if ¬s.d1_wiped ∨ ¬s.d2_wiped then s
    else raidShowStep s 4
  else if s.current_step = 4 then raidShowStep s 5
  else s

/-- `RaidWizard._on_back` (lines 1344-1350). -/
def raidBack (s : RaidState) : RaidState :=
  if s.current_step = 1 then raidShowStep s 0
  else if s.current_step = 2 then raidShowStep s 1
  else if s.current_step = 3 then raidShowStep s 2
  else s

/-- `RaidWizard._launch_wipefs` (lines 1360-1387) with the launch outcome as
a parameter. -/
def raidWipe (s : RaidState) (is2 : Bool) (o : ExecOutcome) : RaidState :=
  match o with
  | .noTerminal => s
  | .ok =>
    let s :=
      if is2 then { s with d2_wiped := true, wipe2_status := "Drive 2 wiped." }
      else { s with d1_wiped := true, wipe1_status := "Drive 1 wiped." }
    { s with next_sens := s.d1_wiped && s.d2_wiped }
  | .fail err =>
    if is2 then { s with wipe2_status := "Failed: " ++ err }
    else { s with wipe1_status := "Failed: " ++ err }

/-- `RaidWizard._show_raid_result` (lines 1490-1497), the deferred callback
of the creation worker. -/
def raidShowResult (s : RaidState) (success : Bool) (msg : String) : RaidState :=
  { s with
    result_text :=
      (if success then "RAID array created successfully!\n\n"
       else "Failed to create RAID array.\n\n") ++ msg,
    finish_sens := true }

/-- User-visible events of an open `RaidWizard`. -/
inductive RaidEvent
  | nextClick
  | backClick
  | selectLevel (row : Option Nat)
  | selectDrives (rows : List String)
  | wipeClick (is2 : Bool) (o : ExecOutcome)
  | creationDone (success : Bool) (msg : String)
deriving Repr, DecidableEq

/-- Event application for `RaidWizard`: insensitive navigation buttons do
not emit clicks, list and wipe widgets are reachable only while their page
is the visible one, and the worker callback can arrive at any time. -/
def applyRaid (e : RaidEvent) (s : RaidState) : RaidState :=
  match e with
  | .nextClick => if s.next_sens then raidNext s else s
  | .backClick => if s.back_sens then raidBack s else s
  | .selectLevel r => if s.current_step = 1 then { s with level_row := r } else s
  | .selectDrives r => if s.current_step = 2 then { s with drive_rows := r } else s
  | .wipeClick is2 o => if s.current_step = 3 then raidWipe s is2 o else s
  | .creationDone success msg => raidShowResult s success msg

/-- The state of a freshly opened `RaidWizard` (`__init__`, lines 1099-1110,
followed by `_show_step(0)`). -/
def raidInit : RaidState :=
  { current_step := 0, level_row := none, drive_rows := [],
    selected_level := none, selected_drives := [],
    d1_wiped := false, d2_wiped := false,
    wipe1_status := "Not wiped yet.", wipe2_status := "Not wiped yet.",
    back_sens := false, next_sens := true, next_label := "Next",
    finish_sens := false, result_text := "" }

/-! ### BcacheWizard (src/main.py lines 452-993) -/

/-- Environment of a `BcacheWizard`: the sysfs probe
`glob("/sys/block/bcache*/slaves/<devname>")`, applied to a device basename
(`true` when the glob is non-empty, i.e. the device is a member of an
existing bcache set). -/
structure BcacheEnv where
  inBcacheSlaves : String → Bool

/-- Logical state of `BcacheWizard`. -/
structure BcacheState where
  current_step : ℚ
  backing_row : Option String
  cache_row : Option String
  selected_backing : Option String
  selected_cache : Option String
  b_needs_detach : Bool
  c_needs_detach : Bool
  b_detached : Bool
  c_detached : Bool
  detach_b_status : String
  detach_c_status : String
  b_wiped : Bool
  c_wiped : Bool
  wipe_b_status : String
  wipe_c_status : String
  back_sens : Bool
  next_sens : Bool
  next_label : String
  finish_sens : Bool
  result_text : String
deriving Repr, DecidableEq

/-- `BcacheWizard._update_detach_ui` (lines 899-943): reset the four detach
flags, then probe sysfs for each selected device; a device not currently in
a bcache set counts as already detached. -/
def bcacheUpdateDetach (env : BcacheEnv) (s : BcacheState) : BcacheState :=
  let s := { s with b_needs_detach := false, c_needs_detach := false,
                    b_detached := false, c_detached := false }
  let s :=
    if pyOptStr s.selected_backing then
      if env.inBcacheSlaves (pyBasename (s.selected_backing.getD "")) then
        { s with b_needs_detach := true, detach_b_status := "Not detached yet." }
      else { s with b_detached := true }
    else s
  if pyOptStr s.selected_cache then
    if env.inBcacheSlaves (pyBasename (s.selected_cache.getD "")) then
      { s with c_needs_detach := true, detach_c_status := "Not detached yet." }
    else { s with c_detached := true }
  else s

/-- `BcacheWizard._update_cleanse_ui` (lines 884-897): reset both wipe flags
and status labels. -/
def bcacheUpdateCleanse (s : BcacheState) : BcacheState :=
  { s with b_wiped := false, c_wiped := false,
           wipe_b_status := "Not wiped yet.", wipe_c_status := "Not wiped yet." }

/-- `BcacheWizard._show_step` (lines 648-693). Entering steps 1 and 2
repopulates the respective device list (dropping any selection); entering
step 3 re-probes the detach state and gates Next on it; entering step 4
resets the wipe flags and gates Next on them. -/
def bcacheShowStep (env : BcacheEnv) (s : BcacheState) (step : ℚ) : BcacheState :=
  let s := { s with current_step := step }
  if step = 0 then
    { s with back_sens := false, next_sens := true, next_label := "Next" }
  else if step = 1 then
    { s with backing_row := none, back_sens := true, next_sens := true,
             next_label := "Next" }
  else if step = 2 then
    { s with cache_row := none, back_sens := true, next_sens := true,
             next_label := "Next" }
  else if step = 3 then
    let s := bcacheUpdateDetach env s
    { s with back_sens := true,
             next_sens := (!s.b_needs_detach || s.b_detached)
               && (!s.c_needs_detach || s.c_detached),
             next_label := "Next" }
  else if step = 4 then
    let s := bcacheUpdateCleanse s
    { s with back_sens := true,
             next_sens := s.b_wiped
               && (decide (s.selected_cache = none) || s.c_wiped),
             next_label := "Next" }
  else if step = 5 then
    { s with back_sens := true, next_sens := true, next_label := "Confirm" }
  else if step = 6 then
    { s with back_sens := false, next_sens := false, finish_sens := false }
  else s

/-- `BcacheWizard._on_next` (lines 695-723). The step-2 branch keeps the
previous `selected_cache` when no row is selected; the step-4 gate uses
Python truthiness of `selected_cache`. The device creation launched after
the step-5 transition is asynchronous and modelled by `creationDone`. -/
def bcacheNext (env : BcacheEnv) (s : BcacheState) : BcacheState :=
  if s.current_step = 0 then bcacheShowStep env s 1
  else if s.current_step = 1 then
    match s.backing_row with
    | none => s
    | some d => bcacheShowStep env { s with selected_backing := some d } 2
  else if s.current_step = 2 then
    let s :=
      match s.cache_row with
      | some d => { s with selected_cache := some d }
      | none => s
    bcacheShowStep env s 3
  else if s.current_step = 3 then
    if (s.b_needs_detach ∧ ¬s.b_detached) ∨ (s.c_needs_detach ∧ ¬s.c_detached) then s
    else bcacheShowStep env s 4
  else if s.current_step = 4 then
    if ¬s.b_wiped ∨ (pyOptStr s.selected_cache ∧ ¬s.c_wiped) then s
    else bcacheShowStep env s 5
  else if s.current_step = 5 then bcacheShowStep env s 6
  else s

/-- `BcacheWizard._on_back` (lines 725-735). -/
def bcacheBack (env : BcacheEnv) (s : BcacheState) : BcacheState :=
  if s.current_step = 1 then bcacheShowStep env s 0
  else if s.current_step = 2 then bcacheShowStep env s 1
  else if s.current_step = 3 then bcacheShowStep env s 2
  else if s.current_step = 4 then bcacheShowStep env s 3
  else if s.current_step = 5 then bcacheShowStep env s 4
  else s

/-- `BcacheWizard._on_skip_cache` (lines 737-739). -/
def bcacheSkip (env : BcacheEnv) (s : BcacheState) : BcacheState :=
  bcacheShowStep env { s with selected_cache := none } 3

/-- `BcacheWizard._launch_wipefs` (lines 854-882). -/
def bcacheWipe (s : BcacheState) (isCache : Bool) (o : ExecOutcome) : BcacheState :=
  match o with
  | .noTerminal => s
  | .ok =>
    let s :=
      if isCache then { s with c_wiped := true, wipe_c_status := "Cache device wiped." }
      else { s with b_wiped := true, wipe_b_status := "Backing device wiped." }
    { s with next_sens := s.b_wiped && (decide (s.selected_cache = none) || s.c_wiped) }
  | .fail err =>
    if isCache then { s with wipe_c_status := "Failed: " ++ err }
    else { s with wipe_b_status := "Failed: " ++ err }

/-- `BcacheWizard._launch_detach` (lines 953-993). A `None` device would
raise a `TypeError` in `os.path.basename` and abort the handler, leaving the
state unchanged; a device no longer in any bcache set is marked detached
without re-evaluating the Next gate (the early return at line 969). -/
def bcacheDetach (env : BcacheEnv) (s : BcacheState) (isCache : Bool)
    (o : ExecOutcome) : BcacheState :=
  match o with
  | .noTerminal => s
  | .ok =>
    match (if isCache then s.selected_cache else s.selected_backing) with
    | none => s
    | some dev =>
      if !env.inBcacheSlaves (pyBasename dev) then
        if isCache then
          { s with c_detached := true,
                   detach_c_status := "Cache device already detached." }
        else
          { s with b_detached := true,
                   detach_b_status := "Backing device already detached." }
      else
        let s :=
          if isCache then
            { s with c_detached := true, detach_c_status := "Cache device detached." }
          else
            { s with b_detached := true,
                     detach_b_status := "Backing device detached." }
        { s with next_sens := (!s.b_needs_detach || s.b_detached)
            && (!s.c_needs_detach || s.c_detached) }
  | .fail err =>
    match (if isCache then s.selected_cache else s.selected_backing) with
    | none => s
    | some dev =>
      if !env.inBcacheSlaves (pyBasename dev) then
        if isCache then
          { s with c_detached := true,
                   detach_c_status := "Cache device already detached." }
        else
          { s with b_detached := true,
                   detach_b_status := "Backing device already detached." }
      else
        if isCache then { s with detach_c_status := "Failed: " ++ err }
        else { s with detach_b_status := "Failed: " ++ err }

/-- `BcacheWizard._show_bcache_result` (lines 830-835). -/
def bcacheShowResult (s : BcacheState) (success : Bool) (msg : String) :
    BcacheState :=
  { s with
    result_text :=
      (if success then "Bcache device created successfully!\n\n"
       else "Failed to create Bcache device.\n\n") ++ msg,
    finish_sens := true }

/-- User-visible events of an open `BcacheWizard`. -/
inductive BcacheEvent
  | nextClick
  | backClick
  | skipClick
  | selBacking (row : Option String)
  | selCache (row : Option String)
  | wipeClick (isCache : Bool) (o : ExecOutcome)
  | detachClick (isCache : Bool) (o : ExecOutcome)
  | creationDone (success : Bool) (msg : String)
deriving Repr, DecidableEq

/-- Event application for `BcacheWizard` (same conventions as
`applyRaid`). -/
def applyBcache (env : BcacheEnv) (e : BcacheEvent) (s : BcacheState) :
    BcacheState :=
  match e with
  | .nextClick => if s.next_sens then bcacheNext env s else s
  | .backClick => if s.back_sens then bcacheBack env s else s
  | .skipClick => if s.current_step = 2 then bcacheSkip env s else s
  | .selBacking r => if s.current_step = 1 then { s with backing_row := r } else s
  | .selCache r => if s.current_step = 2 then { s with cache_row := r } else s
  | .wipeClick c o => if s.current_step = 4 then bcacheWipe s c o else s
  | .detachClick c o => if s.current_step = 3 then bcacheDetach env s c o else s
  | .creationDone success msg => bcacheShowResult s success msg

/-- The state of a freshly opened `BcacheWizard` (lines 454-464 followed by
`_show_step(0)`). -/
def bcacheInit : BcacheState :=
  { current_step := 0, backing_row := none, cache_row := none,
    selected_backing := none, selected_cache := none,
    b_needs_detach := false, c_needs_detach := false,
    b_detached := false, c_detached := false,
    detach_b_status := "Not detached yet.", detach_c_status := "Not detached yet.",
    b_wiped := false, c_wiped := false,
    wipe_b_status := "Not wiped yet.", wipe_c_status := "Not wiped yet.",
    back_sens := false, next_sens := true, next_label := "Next",
    finish_sens := false, result_text := "" }

/-! ### FstabWizard (src/main.py lines 2792-3327) -/

/-- Environment of a `FstabWizard`: stdout of the `lsblk -no FSTYPE`,
`lsblk -no LABEL` and `blkid -s UUID -o value` probes (`.error` = the
subprocess raised), whether a terminal emulator is found, and the outcome of
the terminal launch at the confirm step. -/
structure FstabEnv where
  fstypeOut : String → Except String String
  labelOut : String → Except String String
  uuidOut : String → Except String String
  term : Bool
  runOk : Bool
  runErr : String

/-- Logical state of `FstabWizard`. `fstab_written` is the effect trace of
the confirm step: the line handed to `tee -a /etc/fstab` when the terminal
command ran. -/
structure FstabState where
  current_step : ℚ
  drive_row : Option String
  selected_drive : Option String
  needs_format : Bool
  format_done : Bool
  format_status : String
  mp_entry : String
  mount_point : Option String
  fs_active : String
  fs_type : Option String
  opt_entry : String
  mount_options : Option String
  label_entry : String
  volume_label : Option String
  back_sens : Bool
  next_sens : Bool
  next_label : String
  finish_sens : Bool
  done_msg : String
  fstab_written : Option String
deriving Repr, DecidableEq

/-- The default mount-point suggestion of `_show_step` step 2 (lines
3060-3080): `/mnt/<label>` when the filesystem label probe yields a
non-empty stripped value, else `/mnt/<basename>` when the basename is
non-empty, else `/mnt/data`. -/
def fstabDefaultMp (env : FstabEnv) (row : Option String) : String :=
  match row with
  | none => "/mnt/data"
  | some dev =>
    let lab : Option String :=
      match env.labelOut dev with
      | .ok t => some (pyStrip t)
      | .error _ => none
    if pyOptStr lab then "/mnt/" ++ lab.getD ""
    else
      let name := pyBasename dev
      if name ≠ "" then "/mnt/" ++ name else "/mnt/data"

/-- The fstab line composed at the confirm step (lines 3173-3181): `UUID=`
addressing when the blkid probe succeeded with a non-empty stripped value,
the raw device path otherwise (including when blkid raised). -/
def fstabLineOf (uuidRes : Except String String) (device mp fs opts : String) :
    String :=
  let uuid : Option String :=
    match uuidRes with
    | .ok out => some (pyStrip out)
    | .error _ => none
  if pyOptStr uuid then
    "UUID=" ++ uuid.getD "" ++ "\t" ++ mp ++ "\t" ++ fs ++ "\t" ++ opts ++ "\t0 2"
  else
    device ++ "\t" ++ mp ++ "\t" ++ fs ++ "\t" ++ opts ++ "\t0 2"

/-- `FstabWizard._show_step` (lines 3040-3110). Entering step 1 repopulates
the drive list (dropping the selection); entering the conditional step 1.5
resets the format flag and status and disables Next; entering step 2 fills
the mount-point entry with the computed default. -/
def fstabShowStep (env : FstabEnv) (s : FstabState) (step : ℚ) : FstabState :=
  let s := { s with current_step := step }
  if step = 0 then
    { s with back_sens := false, next_sens := true, next_label := "Next" }
  else if step = 1 then
    { s with drive_row := none, back_sens := true, next_sens := true,
             next_label := "Next" }
  else if step = (3 : ℚ)/2 then
    { s with format_done := false, format_status := "Not formatted yet.",
             back_sens := true, next_sens := false, next_label := "Next" }
  else if step = 2 then
    { s with mp_entry := fstabDefaultMp env s.drive_row,
             back_sens := true, next_sens := true, next_label := "Next" }
  else if step = 3 then
    { s with back_sens := true, next_sens := true, next_label := "Next" }
  else if step = 4 then
    { s with back_sens := true, next_sens := true, next_label := "Next" }
  else if step = 5 then
    { s with back_sens := true, next_sens := true, next_label := "Next" }
  else if step = 6 then
    { s with back_sens := true, next_sens := true, next_label := "Confirm" }
  else if step = 7 then
    { s with back_sens := false, next_sens := false, finish_sens := true }
  else s

/-- `FstabWizard._on_next` (lines 3112-3214). Step 1 inserts the Format step
for a `/dev/bcache*` device whose FSTYPE probe yields an empty value (or
raises); step 2 validates the mount point; step 6 performs the whole fstab
action synchronously (terminal missing means an error dialog and no
transition) and always moves to step 7 afterwards, even when the launch
failed. -/
def fstabNext (env : FstabEnv) (s : FstabState) : FstabState :=
  if s.current_step = 0 then fstabShowStep env s 1
  else if s.current_step = 1 then
    match s.drive_row with
    | none => s
    | some d =>
      let s := { s with selected_drive := some d }
      let nf :=
        if strStartsWith d "/dev/bcache" then
          match env.fstypeOut d with
          | .ok t => pyStrip t == ""
          | .error _ => true
        else false
      let s := { s with needs_format := nf }
      if nf then fstabShowStep env s ((3 : ℚ)/2) else fstabShowStep env s 2
  else if s.current_step = (3 : ℚ)/2 then
    if ¬s.format_done then s else fstabShowStep env s 2
  else if s.current_step = 2 then
    let mp := pyStrip s.mp_entry
    if mp = "" ∨ strStartsWith mp "/" = false then s
    else fstabShowStep env { s with mount_point := some mp } 3
  else if s.current_step = 3 then
    fstabShowStep env { s with fs_type := some s.fs_active } 4
  else if s.current_step = 4 then
    let o := pyStrip s.opt_entry
    fstabShowStep env
      { s with mount_options := some (if o = "" then "defaults" else o) } 5
  else if s.current_step = 5 then
    fstabShowStep env { s with volume_label := some (pyStrip s.label_entry) } 6
  else if s.current_step = 6 then
    if !env.term then s
    else
      let device := pyStrObj s.selected_drive
      let mp := pyStrObj s.mount_point
      let fs := pyStrObj s.fs_type
      let opts := pyStrObj s.mount_options
      let line := fstabLineOf (env.uuidOut device) device mp fs opts
      let s :=
        { s with
          fstab_written := if env.runOk then some line else s.fstab_written,
          done_msg :=
            if env.runOk then
              "Fstab entry added and drive mounted! You can now use your drive."
            else "Failed: " ++ env.runErr }
      fstabShowStep env s 7
  else s

/-- `FstabWizard._on_back` (lines 3216-3226); note Back from the mount-point
step returns to drive selection even when the Format step had been
inserted. -/
def fstabBack (env : FstabEnv) (s : FstabState) : FstabState :=
  if s.current_step = 1 then fstabShowStep env s 0
  else if s.current_step = 2 then fstabShowStep env s 1
  else if s.current_step = 3 then fstabShowStep env s 2
  else if s.current_step = 4 then fstabShowStep env s 3
  else if s.current_step = 5 then fstabShowStep env s 4
  else s

/-- `FstabWizard._on_format_bcache` (lines 3302-3327). -/
def fstabFormat (s : FstabState) (o : ExecOutcome) : FstabState :=
  match o with
  | .noTerminal => s
  | .ok =>
    { s with format_done := true, format_status := "Device formatted.",
             next_sens := true }
  | .fail err => { s with format_status := "Failed: " ++ err }

/-- User-visible events of an open `FstabWizard`. -/
inductive FstabEvent
  | nextClick
  | backClick
  | selDrive (row : Option String)
  | setMpEntry (t : String)
  | setFsActive (t : String)
  | setOptEntry (t : String)
  | setLabelEntry (t : String)
  | formatClick (o : ExecOutcome)
deriving Repr, DecidableEq

/-- Event application for `FstabWizard` (entry and combo widgets are
editable only while their page is visible). -/
def applyFstab (env : FstabEnv) (e : FstabEvent) (s : FstabState) : FstabState :=
  match e with
  | .nextClick => if s.next_sens then fstabNext env s else s
  | .backClick => if s.back_sens then fstabBack env s else s
  | .selDrive r => if s.current_step = 1 then { s with drive_row := r } else s
  | .setMpEntry t => if s.current_step = 2 then { s with mp_entry := t } else s
  | .setFsActive t => if s.current_step = 3 then { s with fs_active := t } else s
  | .setOptEntry t => if s.current_step = 4 then { s with opt_entry := t } else s
  | .setLabelEntry t => if s.current_step = 5 then { s with label_entry := t } else s
  | .formatClick o =>
    if s.current_step = (3 : ℚ)/2 then fstabFormat s o else s

/-- The state of a freshly opened `FstabWizard` (lines 2794-2809 followed by
`_show_step(0)`). -/
def fstabInit : FstabState :=
  { current_step := 0, drive_row := none, selected_drive := none,
    needs_format := false, format_done := false,
    format_status := "Not formatted yet.", mp_entry := "", mount_point := none,
    fs_active := "auto", fs_type := none, opt_entry := "", mount_options := none,
    label_entry := "", volume_label := none,
    back_sens := false, next_sens := true, next_label := "Next",
    finish_sens := false,
    done_msg := "No changes have been made yet. (This is a preview; actual fstab editing will be implemented next.)",
    fstab_written := none }

/-! ### BenchmarkWizard (src/main.py lines 3358-3748) -/

/-- Environment of a `BenchmarkWizard`: stdout of the `lsblk -no MOUNTPOINT`
probe, the `os.path.isdir` check, whether the test file already exists,
whether a terminal emulator is found, and the terminal-launch outcome. -/
structure BenchEnv where
  mountpointOut : String → Except String String
  isDir : String → Bool
  fileExists : Bool
  term : Bool
  runOk : Bool

/-- Logical state of `BenchmarkWizard`. `ran` and `dd_count` trace whether a
benchmark result record was appended and with which dd block count. -/
structure BenchState where
  current_step : ℚ
  drive_row : Option String
  type_row : Option Nat
  selected_drive : Option String
  test_type : Option Nat
  size_entry : String
  dur_entry : String
  opts_size : Option String
  opts_dur : Option String
  ran : Bool
  dd_count : Option String
  back_sens : Bool
  next_sens : Bool
  next_label : String
  finish_sens : Bool
deriving Repr, DecidableEq

/-- `BenchmarkWizard._show_step` (lines 3537-3571). -/
def benchShowStep (s : BenchState) (step : ℚ) : BenchState :=
  let s := { s with current_step := step }
  if step = 0 then
    { s with back_sens := false, next_sens := true, next_label := "Next" }
  else if step = 1 then
    { s with drive_row := none, back_sens := true, next_sens := true,
             next_label := "Next" }
  else if step = 2 then
    { s with back_sens := true, next_sens := true, next_label := "Next" }
  else if step = 3 then
    { s with back_sens := true, next_sens := true, next_label := "Next" }
  else if step = 4 then
    { s with back_sens := true, next_sens := true, next_label := "Run Test" }
  else if step = 5 then
    { s with back_sens := false, next_sens := false, finish_sens := true }
  else s

/-- `BenchmarkWizard._on_next` (lines 3573-3667). Step 4 runs the test: an
unmounted drive, a raised `ValueError` in the block-count derivation, an
unsupported test type, a missing terminal, or a failed launch all abort the
handler with the state unchanged; a successful run appends a result record
and moves to the result step. -/
def benchNext (env : BenchEnv) (s : BenchState) : BenchState :=
  if s.current_step = 0 then benchShowStep s 1
  else if s.current_step = 1 then
    match s.drive_row with
    | none => s
    | some d => benchShowStep { s with selected_drive := some d } 2
  else if s.current_step = 2 then
    match s.type_row with
    | none => s
    | some i => benchShowStep { s with test_type := some i } 3
  else if s.current_step = 3 then
    benchShowStep
      { s with opts_size := some (pyStrip s.size_entry),
               opts_dur := some (pyStrip s.dur_entry) } 4
  else if s.current_step = 4 then
    if ¬pyOptStr s.selected_drive then s
    else
      let mp : Option String :=
        match env.mountpointOut (s.selected_drive.getD "") with
        | .ok out =>
          if pyStrip out ≠ "" then some ((pyLines (pyStrip out)).headD "")
          else none
        | .error _ => none
      match mp with
      | none => s
      | some m =>
        if !env.isDir m then s
        else
          match derive_dd_count (s.opts_size.getD "1G") with
          | .error _ => s
          | .ok count =>
            if s.test_type = some 0 ∨ s.test_type = some 1 then
              if !env.term then s
              else if env.runOk then
                benchShowStep { s with ran := true, dd_count := some count } 5
              else s
            else s
  else s

/-- `BenchmarkWizard._on_back` (lines 3669-3677). -/
def benchBack (s : BenchState) : BenchState :=
  if s.current_step = 1 then benchShowStep s 0
  else if s.current_step = 2 then benchShowStep s 1
  else if s.current_step = 3 then benchShowStep s 2
  else if s.current_step = 4 then benchShowStep s 3
  else s

/-- User-visible events of an open `BenchmarkWizard`. -/
inductive BenchEvent
  | nextClick
  | backClick
  | selDrive (row : Option String)
  | selType (row : Option Nat)
  | setSize (t : String)
  | setDur (t : String)
deriving Repr, DecidableEq

/-- Event application for `BenchmarkWizard`. -/
def applyBench (env : BenchEnv) (e : BenchEvent) (s : BenchState) : BenchState :=
  match e with
  | .nextClick => if s.next_sens then benchNext env s else s
  | .backClick => if s.back_sens then benchBack s else s
  | .selDrive r => if s.current_step = 1 then { s with drive_row := r } else s
  | .selType r => if s.current_step = 2 then { s with type_row := r } else s
  | .setSize t => if s.current_step = 3 then { s with size_entry := t } else s
  | .setDur t => if s.current_step = 3 then { s with dur_entry := t } else s

/-- The state of a freshly opened `BenchmarkWizard` (lines 3360-3372). -/
def benchInit : BenchState :=
  { current_step := 0, drive_row := none, type_row := none,
    selected_drive := none, test_type := none,
    size_entry := "1G", dur_entry := "10", opts_size := none, opts_dur := none,
    ran := false, dd_count := none,
    back_sens := false, next_sens := true, next_label := "Next",
    finish_sens := false }

/-! ## Claim C4 -/

/-- Claim C4: pressing Next while the current step's forward gate is false
leaves the whole wizard state unchanged — no step transition and no change
to any accumulated selection — for every listed gate: the RAID
exactly-two-drives gate (step 2) and cleanse gate (step 3), the Bcache
detach gate (step 3) and cleanse gate (step 4), and the Fstab format-done
gate (step 1.5) and mount-point-starts-with-slash gate (step 2). -/
theorem wizard_gate_no_op :
    (∀ s : RaidState, s.current_step = 2 → s.drive_rows.length ≠ 2 →
      raidNext s = s) ∧
    (∀ s : RaidState, s.current_step = 3 → (¬s.d1_wiped ∨ ¬s.d2_wiped) →
      raidNext s = s) ∧
    (∀ (env : BcacheEnv) (s : BcacheState), s.current_step = 3 →
      ((s.b_needs_detach ∧ ¬s.b_detached) ∨ (s.c_needs_detach ∧ ¬s.c_detached)) →
      bcacheNext env s = s) ∧
    (∀ (env : BcacheEnv) (s : BcacheState), s.current_step = 4 →
      (¬s.b_wiped ∨ (pyOptStr s.selected_cache ∧ ¬s.c_wiped)) →
      bcacheNext env s = s) ∧
    (∀ (env : FstabEnv) (s : FstabState), s.current_step = (3 : ℚ)/2 →
      ¬s.format_done → fstabNext env s = s) ∧
    (∀ (env : FstabEnv) (s : FstabState), s.current_step = 2 →
      (pyStrip s.mp_entry = "" ∨ strStartsWith (pyStrip s.mp_entry) "/" = false) →
      fstabNext env s = s) := by
  refine ⟨?_, ?_, ?_, ?_, ?_, ?_⟩
  · intro s h1 h2
    simp only [raidNext, h1]
    norm_num
    intro h
    exact absurd h h2
  · intro s h1 h2
    simp only [raidNext, h1]
    norm_num
    rcases h2 with h | h <;> simp [h]
  · intro env s h1 h2
    simp only [bcacheNext, h1]
    norm_num
    rcases h2 with ⟨ha, hb⟩ | ⟨ha, hb⟩ <;> simp [ha, hb]
  · intro env s h1 h2
    simp only [bcacheNext, h1]
    norm_num
    rcases h2 with h | ⟨ha, hb⟩ <;> simp [*]
  · intro env s h1 h2
    simp only [fstabNext, h1]
    norm_num
    simp [h2]
  · intro env s h1 h2
    simp only [fstabNext, h1]
    norm_num
    rcases h2 with h | h <;> simp [h]

/-- Witness for C4: each gate evaluated at a concrete blocked state: the
RAID wizard with one selected drive at step 2 and with unwiped drives at
step 3, the Bcache wizard with a pending backing detach at step 3 and an
unwiped backing drive at step 4, and the Fstab wizard with an unformatted
bcache device at step 1.5 and the mount-point entry `data` (no leading
slash) at step 2 — Next leaves each state unchanged. -/
theorem wizard_gate_no_op_check :
    raidNext { raidInit with current_step := 2, drive_rows := ["/dev/sda"] }
      = { raidInit with current_step := 2, drive_rows := ["/dev/sda"] } ∧
    raidNext { raidInit with current_step := 3 }
      = { raidInit with current_step := 3 } ∧
    bcacheNext ⟨fun _ => true⟩
        { bcacheInit with current_step := 3, b_needs_detach := true }
      = { bcacheInit with current_step := 3, b_needs_detach := true } ∧
    bcacheNext ⟨fun _ => true⟩ { bcacheInit with current_step := 4 }
      = { bcacheInit with current_step := 4 } ∧
    fstabNext ⟨fun _ => .ok "", fun _ => .ok "", fun _ => .ok "", true, true, ""⟩
        { fstabInit with current_step := (3 : ℚ)/2 }
      = { fstabInit with current_step := (3 : ℚ)/2 } ∧
    fstabNext ⟨fun _ => .ok "", fun _ => .ok "", fun _ => .ok "", true, true, ""⟩
        { fstabInit with current_step := 2, mp_entry := "data" }
      = { fstabInit with current_step := 2, mp_entry := "data" } := by
  refine ⟨?_, ?_, ?_, ?_, ?_, ?_⟩
  · exact wizard_gate_no_op.1 _ rfl (by decide)
  · exact wizard_gate_no_op.2.1 _ rfl (by simp [raidInit])
  · exact wizard_gate_no_op.2.2.1 _ _ rfl (by simp [bcacheInit])
  · exact wizard_gate_no_op.2.2.2.1 _ _ rfl (by simp [bcacheInit])
  · exact wizard_gate_no_op.2.2.2.2.1 _ _ rfl (by simp [fstabInit])
  · exact wizard_gate_no_op.2.2.2.2.2 _ _ rfl (by right; decide)

/-! ## Claim C10 -/

/-- Claim C10: every entry into the RAID or Bcache Cleanse step and into the
Fstab Format step — `_show_step` is the single entry point, used both by
Next and by Back — resets the completion flags to false and the status texts
to their initial values, and recomputes the Next gate from the reset flags,
so it is disabled: a wipe or format done on an earlier visit never satisfies
the gate on a later visit. -/
theorem cleanse_entry_reset :
    (∀ s : RaidState,
      (raidShowStep s 3).current_step = 3 ∧
      (raidShowStep s 3).d1_wiped = false ∧
      (raidShowStep s 3).d2_wiped = false ∧
      (raidShowStep s 3).wipe1_status = "Not wiped yet." ∧
      (raidShowStep s 3).wipe2_status = "Not wiped yet." ∧
      (raidShowStep s 3).next_sens = false) ∧
    (∀ (env : BcacheEnv) (s : BcacheState),
      (bcacheShowStep env s 4).current_step = 4 ∧
      (bcacheShowStep env s 4).b_wiped = false ∧
      (bcacheShowStep env s 4).c_wiped = false ∧
      (bcacheShowStep env s 4).wipe_b_status = "Not wiped yet." ∧
      (bcacheShowStep env s 4).wipe_c_status = "Not wiped yet." ∧
      (bcacheShowStep env s 4).next_sens = false) ∧
    (∀ (env : FstabEnv) (s : FstabState),
      (fstabShowStep env s ((3 : ℚ)/2)).current_step = (3 : ℚ)/2 ∧
      (fstabShowStep env s ((3 : ℚ)/2)).format_done = false ∧
      (fstabShowStep env s ((3 : ℚ)/2)).format_status = "Not formatted yet." ∧
      (fstabShowStep env s ((3 : ℚ)/2)).next_sens = false) := by
  refine ⟨?_, ?_, ?_⟩
  · intro s
    norm_num [raidShowStep, raidUpdateCleanse]
  · intro env s
    norm_num [bcacheShowStep, bcacheUpdateCleanse]
  · intro env s
    norm_num [fstabShowStep]

/-! ## Claim C8 -/

/-- `RaidWizard._on_next` has no branch for the result step. -/
lemma raidNext_terminal (s : RaidState) (h : s.current_step = 5) :
    raidNext s = s := by
  simp only [raidNext, h]
  norm_num

/-- `RaidWizard._on_back` has no branch for the result step. -/
lemma raidBack_terminal (s : RaidState) (h : s.current_step = 5) :
    raidBack s = s := by
  simp only [raidBack, h]
  norm_num

/-- `BcacheWizard._on_next` has no branch for the result step. -/
lemma bcacheNext_terminal (env : BcacheEnv) (s : BcacheState)
    (h : s.current_step = 6) : bcacheNext env s = s := by
  simp only [bcacheNext, h]
  norm_num

/-- `BcacheWizard._on_back` has no branch for the result step. -/
lemma bcacheBack_terminal (env : BcacheEnv) (s : BcacheState)
    (h : s.current_step = 6) : bcacheBack env s = s := by
  simp only [bcacheBack, h]
  norm_num

/-- `FstabWizard._on_next` has no branch for the done step. -/
lemma fstabNext_terminal (env : FstabEnv) (s : FstabState)
    (h : s.current_step = 7) : fstabNext env s = s := by
  simp only [fstabNext, h]
  norm_num

/-- `FstabWizard._on_back` has no branch for the done step. -/
lemma fstabBack_terminal (env : FstabEnv) (s : FstabState)
    (h : s.current_step = 7) : fstabBack env s = s := by
  simp only [fstabBack, h]
  norm_num

/-- `BenchmarkWizard._on_next` has no branch for the result step. -/
lemma benchNext_terminal (env : BenchEnv) (s : BenchState)
    (h : s.current_step = 5) : benchNext env s = s := by
  simp only [benchNext, h]
  norm_num

/-- `BenchmarkWizard._on_back` has no branch for the result step. -/
lemma benchBack_terminal (s : BenchState) (h : s.current_step = 5) :
    benchBack s = s := by
  simp only [benchBack, h]
  norm_num

/-- Claim C8: in every wizard, entering the terminal result step disables
both Back and Next, and from the result step no event — navigation clicks
(their handlers have no branch for the terminal step, and the buttons are
insensitive anyway), widget interactions (their pages are no longer
visible), or the asynchronous worker callback (which only sets the result
text and the Finish button) — changes the current step or the Back/Next
sensitivities. -/
theorem result_step_terminal :
    (∀ s : RaidState,
      (raidShowStep s 5).current_step = 5 ∧
      (raidShowStep s 5).back_sens = false ∧
      (raidShowStep s 5).next_sens = false) ∧
    (∀ (e : RaidEvent) (s : RaidState), s.current_step = 5 →
      (applyRaid e s).current_step = 5 ∧
      (applyRaid e s).back_sens = s.back_sens ∧
      (applyRaid e s).next_sens = s.next_sens) ∧
    (∀ (env : BcacheEnv) (s : BcacheState),
      (bcacheShowStep env s 6).current_step = 6 ∧
      (bcacheShowStep env s 6).back_sens = false ∧
      (bcacheShowStep env s 6).next_sens = false) ∧
    (∀ (env : BcacheEnv) (e : BcacheEvent) (s : BcacheState),
      s.current_step = 6 →
      (applyBcache env e s).current_step = 6 ∧
      (applyBcache env e s).back_sens = s.back_sens ∧
      (applyBcache env e s).next_sens = s.next_sens) ∧
    (∀ (env : FstabEnv) (s : FstabState),
      (fstabShowStep env s 7).current_step = 7 ∧
      (fstabShowStep env s 7).back_sens = false ∧
      (fstabShowStep env s 7).next_sens = false) ∧
    (∀ (env : FstabEnv) (e : FstabEvent) (s : FstabState),
      s.current_step = 7 →
      (applyFstab env e s).current_step = 7 ∧
      (applyFstab env e s).back_sens = s.back_sens ∧
      (applyFstab env e s).next_sens = s.next_sens) ∧
    (∀ s : BenchState,
      (benchShowStep s 5).current_step = 5 ∧
      (benchShowStep s 5).back_sens = false ∧
      (benchShowStep s 5).next_sens = false) ∧
    (∀ (env : BenchEnv) (e : BenchEvent) (s : BenchState),
      s.current_step = 5 →
      (applyBench env e s).current_step = 5 ∧
      (applyBench env e s).back_sens = s.back_sens ∧
      (applyBench env e s).next_sens = s.next_sens) := by
  refine ⟨?_, ?_, ?_, ?_, ?_, ?_, ?_, ?_⟩
  · intro s
    norm_num [raidShowStep]
  · intro e s h
    cases e with
    | nextClick =>
      by_cases hb : s.next_sens <;>
        simp [applyRaid, hb, raidNext_terminal s h, h]
    | backClick =>
      by_cases hb : s.back_sens <;>
        simp [applyRaid, hb, raidBack_terminal s h, h]
    | selectLevel r =>
      rw [applyRaid, if_neg (by rw [h]; norm_num)]
      exact ⟨h, rfl, rfl⟩
    | selectDrives r =>
      rw [applyRaid, if_neg (by rw [h]; norm_num)]
      exact ⟨h, rfl, rfl⟩
    | wipeClick is2 o =>
      rw [applyRaid, if_neg (by rw [h]; norm_num)]
      exact ⟨h, rfl, rfl⟩
    | creationDone success msg =>
      simp [applyRaid, raidShowResult, h]
  · intro env s
    norm_num [bcacheShowStep]
  · intro env e s h
    cases e with
    | nextClick =>
      by_cases hb : s.next_sens <;>
        simp [applyBcache, hb, bcacheNext_terminal env s h, h]
    | backClick =>
      by_cases hb : s.back_sens <;>
        simp [applyBcache, hb, bcacheBack_terminal env s h, h]
    | skipClick =>
      rw [applyBcache, if_neg (by rw [h]; norm_num)]
      exact ⟨h, rfl, rfl⟩
    | selBacking r =>
      rw [applyBcache, if_neg (by rw [h]; norm_num)]
      exact ⟨h, rfl, rfl⟩
    | selCache r =>
      rw [applyBcache, if_neg (by rw [h]; norm_num)]
      exact ⟨h, rfl, rfl⟩
    | wipeClick c o =>
      rw [applyBcache, if_neg (by rw [h]; norm_num)]
      exact ⟨h, rfl, rfl⟩
    | detachClick c o =>
      rw [applyBcache, if_neg (by rw [h]; norm_num)]
      exact ⟨h, rfl, rfl⟩
    | creationDone success msg =>
      simp [applyBcache, bcacheShowResult, h]
  · intro env s
    norm_num [fstabShowStep]
  · intro env e s h
    cases e with
    | nextClick =>
      by_cases hb : s.next_sens <;>
        simp [applyFstab, hb, fstabNext_terminal env s h, h]
    | backClick =>
      by_cases hb : s.back_sens <;>
        simp [applyFstab, hb, fstabBack_terminal env s h, h]
    | selDrive r =>
      rw [applyFstab, if_neg (by rw [h]; norm_num)]
      exact ⟨h, rfl, rfl⟩
    | setMpEntry t =>
      rw [applyFstab, if_neg (by rw [h]; norm_num)]
      exact ⟨h, rfl, rfl⟩
    | setFsActive t =>
      rw [applyFstab, if_neg (by rw [h]; norm_num)]
      exact ⟨h, rfl, rfl⟩
    | setOptEntry t =>
      rw [applyFstab, if_neg (by rw [h]; norm_num)]
      exact ⟨h, rfl, rfl⟩
    | setLabelEntry t =>
      rw [applyFstab, if_neg (by rw [h]; norm_num)]
      exact ⟨h, rfl, rfl⟩
    | formatClick o =>
      rw [applyFstab, if_neg (by rw [h]; norm_num)]
      exact ⟨h, rfl, rfl⟩
  · intro s
    norm_num [benchShowStep]
  · intro env e s h
    cases e with
    | nextClick =>
      by_cases hb : s.next_sens <;>
        simp [applyBench, hb, benchNext_terminal env s h, h]
    | backClick =>
      by_cases hb : s.back_sens <;>
        simp [applyBench, hb, benchBack_terminal s h, h]
    | selDrive r =>
      rw [applyBench, if_neg (by rw [h]; norm_num)]
      exact ⟨h, rfl, rfl⟩
    | selType r =>
      rw [applyBench, if_neg (by rw [h]; norm_num)]
      exact ⟨h, rfl, rfl⟩
    | setSize t =>
      rw [applyBench, if_neg (by rw [h]; norm_num)]
      exact ⟨h, rfl, rfl⟩
    | setDur t =>
      rw [applyBench, if_neg (by rw [h]; norm_num)]
      exact ⟨h, rfl, rfl⟩

/-- Witness for C8: concrete states sitting on each wizard's terminal step;
a Next click, a Back click, a worker callback and a format click leave the
step unchanged. -/
theorem result_step_terminal_check :
    (applyRaid RaidEvent.nextClick
      { raidInit with current_step := 5 }).current_step = 5 ∧
    (applyRaid (RaidEvent.creationDone true "ok")
      { raidInit with current_step := 5 }).current_step = 5 ∧
    (applyBcache ⟨fun _ => false⟩ BcacheEvent.backClick
      { bcacheInit with current_step := 6 }).current_step = 6 ∧
    (applyFstab ⟨fun _ => .ok "", fun _ => .ok "", fun _ => .ok "", true, true, ""⟩
      (FstabEvent.formatClick ExecOutcome.ok)
      { fstabInit with current_step := 7 }).current_step = 7 ∧
    (applyBench ⟨fun _ => .ok "", fun _ => false, false, true, true⟩
      BenchEvent.nextClick
      { benchInit with current_step := 5 }).current_step = 5 := by
  refine ⟨?_, ?_, ?_, ?_, ?_⟩
  · exact (result_step_terminal.2.1 RaidEvent.nextClick _ rfl).1
  · exact (result_step_terminal.2.1 (RaidEvent.creationDone true "ok") _ rfl).1
  · exact (result_step_terminal.2.2.2.1 _ BcacheEvent.backClick _ rfl).1
  · exact (result_step_terminal.2.2.2.2.2.1 _
      (FstabEvent.formatClick ExecOutcome.ok) _ rfl).1
  · exact (result_step_terminal.2.2.2.2.2.2.2 _ BenchEvent.nextClick _ rfl).1

/-! ## Claim C7 -/

/-- Claim C7: in the Fstab wizard, choosing a device whose path starts with
`/dev/bcache` and whose FSTYPE probe yields an empty stripped value routes
Next into the conditional Format step with `format_done` reset and Next
disabled; the Format step's gate blocks Next until the format action
completes (a successful format sets `format_done` and re-enables Next, after
which Next proceeds to the mount-point step); and the line appended to
`/etc/fstab` at confirmation addresses the device as `UUID=<resolved>` when
blkid yields a non-empty stripped value and as the raw device path when it
yields an empty value or raises. -/
theorem fstab_format_and_uuid :
    (∀ (env : FstabEnv) (s : FstabState) (d t : String),
      s.current_step = 1 → s.drive_row = some d →
      strStartsWith d "/dev/bcache" = true →
      env.fstypeOut d = .ok t → pyStrip t = "" →
      (fstabNext env s).current_step = (3 : ℚ)/2 ∧
      (fstabNext env s).needs_format = true ∧
      (fstabNext env s).format_done = false ∧
      (fstabNext env s).format_status = "Not formatted yet." ∧
      (fstabNext env s).next_sens = false) ∧
    (∀ (env : FstabEnv) (s : FstabState), s.current_step = (3 : ℚ)/2 →
      ¬s.format_done → fstabNext env s = s) ∧
    (∀ (env : FstabEnv) (s : FstabState), s.current_step = (3 : ℚ)/2 →
      applyFstab env (.formatClick .ok) s
        = { s with format_done := true, format_status := "Device formatted.",
                   next_sens := true }) ∧
    (∀ (env : FstabEnv) (s : FstabState), s.current_step = (3 : ℚ)/2 →
      s.format_done = true → (fstabNext env s).current_step = 2) ∧
    (∀ u device mp fs opts,
      (pyStrip u ≠ "" →
        fstabLineOf (.ok u) device mp fs opts
          = "UUID=" ++ pyStrip u ++ "\t" ++ mp ++ "\t" ++ fs ++ "\t" ++ opts
              ++ "\t0 2") ∧
      (pyStrip u = "" →
        fstabLineOf (.ok u) device mp fs opts
          = device ++ "\t" ++ mp ++ "\t" ++ fs ++ "\t" ++ opts ++ "\t0 2") ∧
      (∀ err, fstabLineOf (.error err) device mp fs opts
        = device ++ "\t" ++ mp ++ "\t" ++ fs ++ "\t" ++ opts ++ "\t0 2")) ∧
    (∀ (env : FstabEnv) (s : FstabState), s.current_step = 6 →
      env.term = true → env.runOk = true →
      (fstabNext env s).fstab_written
        = some (fstabLineOf (env.uuidOut (pyStrObj s.selected_drive))
            (pyStrObj s.selected_drive) (pyStrObj s.mount_point)
            (pyStrObj s.fs_type) (pyStrObj s.mount_options)) ∧
      (fstabNext env s).current_step = 7) := by
  refine ⟨?_, ?_, ?_, ?_, ?_, ?_⟩
  · intro env s d t h1 hrow hbc hft hstrip
    simp only [fstabNext, h1, hrow]
    norm_num [hbc, hft, hstrip, fstabShowStep]
  · intro env s h1 h2
    simp only [fstabNext, h1]
    norm_num
    simp [h2]
  · intro env s h1
    simp [applyFstab, h1, fstabFormat]
  · intro env s h1 h2
    simp only [fstabNext, h1]
    norm_num [h2, fstabShowStep]
  · intro u device mp fs opts
    refine ⟨?_, ?_, ?_⟩
    · intro h
      simp [fstabLineOf, pyOptStr, h]
    · intro h
      simp [fstabLineOf, pyOptStr, h]
    · intro err
      simp [fstabLineOf, pyOptStr]
  · intro env s h1 hterm hrun
    simp only [fstabNext, h1]
    norm_num [hterm, hrun, fstabShowStep]

/-- Witness for C7: `/dev/bcache0` with FSTYPE output `"\n"` (stripped
empty) routes Next from drive selection into the Format step with Next
disabled; the gate at the Format step blocks Next; a successful format sets
the flag; and the composed fstab line uses `UUID=` for blkid output
`abcd-1234` and the raw path for empty blkid output. -/
theorem fstab_format_and_uuid_check :
    (fstabNext
      ⟨fun _ => .ok "\n", fun _ => .ok "", fun _ => .ok "", true, true, ""⟩
      { fstabInit with current_step := 1, drive_row := some "/dev/bcache0" }
      ).current_step = (3 : ℚ)/2 ∧
    fstabNext
      ⟨fun _ => .ok "\n", fun _ => .ok "", fun _ => .ok "", true, true, ""⟩
      { fstabInit with current_step := (3 : ℚ)/2 }
      = { fstabInit with current_step := (3 : ℚ)/2 } ∧
    fstabLineOf (.ok "abcd-1234") "/dev/bcache0" "/mnt/data" "ext4" "defaults"
      = "UUID=" ++ pyStrip "abcd-1234" ++ "\t" ++ "/mnt/data" ++ "\t" ++ "ext4"
          ++ "\t" ++ "defaults" ++ "\t0 2" ∧
    fstabLineOf (.ok "") "/dev/bcache0" "/mnt/data" "ext4" "defaults"
      = "/dev/bcache0" ++ "\t" ++ "/mnt/data" ++ "\t" ++ "ext4" ++ "\t"
          ++ "defaults" ++ "\t0 2" := by
  refine ⟨?_, ?_, ?_, ?_⟩
  · exact (fstab_format_and_uuid.1 _ _ "/dev/bcache0" "\n" rfl rfl (by decide)
      rfl (by decide)).1
  · exact fstab_format_and_uuid.2.1 _ _ rfl (by simp [fstabInit])
  · exact (fstab_format_and_uuid.2.2.2.2.1 "abcd-1234" _ _ _ _).1 (by decide)
  · exact (fstab_format_and_uuid.2.2.2.2.1 "" _ _ _ _).2.1 (by decide)

end DarkDiskz
